import Mathlib

/-!
Shallow embedding of the "Pocket Progress" PWA core logic
(src/unnamed/part_002, the full App.jsx, with the variant initializers of
src/src/App.jsx), for checking the claims about the ledger/progress
invariant, input validation, persistence recovery and the knob control.

Conventions of the embedding:
* JavaScript numbers appearing as *inputs* that may fail numeric coercion
  are modelled as `Option Int`: `none` stands for a value whose `Number(...)`
  coercion is `NaN`, `some n` for a numeric value `n`.  Amounts in this app
  are integers throughout, so `Int` is used for the numeric domain.
* `localStorage.getItem` results are `Option String` (`none` = key absent).
* The React `useState` fields that belong to the logical core
  (`targetSum`, `progress`, `entries`, `knobValue`) form `AppState`;
  each event handler becomes a function `AppState → AppState`.
-/

namespace PocketProgress

/-- One ledger entry, from `addEntry` in part_002:
`{ amount, partName: string|null, date }`.  The date is kept as the raw
ISO string the code stores. -/
structure Entry where
  amount : Int
  partName : Option String
  date : String
deriving DecidableEq, Repr

/-- The logical state of the component: the three persisted values plus the
pending knob value (part_002 lines 25-41 and 62). -/
structure AppState where
  targetSum : Int
  progress : Int
  entries : List Entry
  knobValue : Int
deriving DecidableEq, Repr

/-- `const clamp = (v, a, b) => Math.max(a, Math.min(b, v));` (part_002 line 21). -/
def clamp (v a b : Int) : Int := max a (min b v)

/-- Value of a digit list, most significant first. -/
def digitsVal : List Char → Nat
  | [] => 0
  | c :: cs => (c.toNat - '0'.toNat) * 10 ^ cs.length + digitsVal cs

/-- Whitespace trimming on a character list (both ends). -/
def jsTrim (cs : List Char) : List Char :=
  ((cs.dropWhile Char.isWhitespace).reverse.dropWhile Char.isWhitespace).reverse

/-- Modelled platform primitive: JavaScript `String.prototype.trim`,
whitespace removed from both ends. -/
def strTrim (s : String) : String := ⟨jsTrim s.data⟩

/-- Modelled platform primitive: JavaScript `Number(s)` on a string, restricted
to the integer-literal fragment relevant here — after trimming, the empty
string coerces to 0, an optionally signed run of decimal digits to its value,
and anything else (e.g. `"abc"`) to NaN (`none`).  Fractional, hex and
exponent literal forms are outside the model; no claim evaluates them. -/
def jsNumber (s : String) : Option Int :=
  match jsTrim s.toList with
  | [] => some 0
  | '-' :: cs => if cs ≠ [] ∧ cs.all Char.isDigit then some (-(digitsVal cs : Int)) else none
  | '+' :: cs => if cs ≠ [] ∧ cs.all Char.isDigit then some ((digitsVal cs : Int)) else none
  | cs => if cs.all Char.isDigit then some ((digitsVal cs : Int)) else none

/-- The `targetSum` initializer of part_002 lines 25-28:
`raw ? Number(raw) : 100000` — an absent key or the (falsy) empty string
gives the default 100000; any other string is coerced by `Number`, so a
non-numeric string gives NaN (`none` here). -/
def targetInit (stored : Option String) : Option Int :=
  match stored with
  | none => some 100000
  | some raw => if raw = "" then some 100000 else jsNumber raw

/-- The `targetSum` initializer of src/src/App.jsx line 14:
`Number(localStorage.getItem(KEY)) || 100000` — `Number(null) = 0`, and both
`0` and `NaN` are falsy, so absence, emptiness, a stored `"0"` and any
non-numeric string all fall back to 100000. -/
def targetInitJsx (stored : Option String) : Int :=
  let n : Option Int :=
    match stored with
    | none => some 0
    | some raw => jsNumber raw
  match n with
  | none => 100000
  | some 0 => 100000
  | some v => v

/-- The `entries` initializer of part_002 lines 33-41: an absent or (falsy)
empty raw value gives `[]`; otherwise `JSON.parse(raw)` is attempted and any
parse exception is caught and replaced by `[]`.  `JSON.parse` is a platform
primitive, so it is a parameter `p` here, with `p raw = none` standing for a
thrown parse error. -/
def entriesInit (p : String → Option (List Entry)) (stored : Option String) : List Entry :=
  match stored with
  | none => []
  | some raw =>
    if raw = "" then []
    else
      match p raw with
      | some l => l
      | none => []

/-- The `entries` initializer of src/src/App.jsx line 16:
`JSON.parse(localStorage.getItem(KEY) || "[]")` — an absent key (`null`) or
the falsy empty string is replaced by the literal `"[]"` before parsing, but
the parse itself is not guarded by any try/catch: a thrown parse error
(modelled `p raw = none`) propagates out of the initializer.  The result is
therefore `Option (List Entry)`, with `none` meaning the loader throws (a
crash during render, not a degradation). -/
def entriesInitJsx (p : String → Option (List Entry)) (stored : Option String) :
    Option (List Entry) :=
  match stored with
  | none => p "[]"
  | some raw => if raw = "" then p "[]" else p raw

/-- `addEntry(amount, partName = "")` (part_002 lines 79-92): a NaN or zero
amount is a silent no-op; otherwise the new entry is prepended and progress
incremented by the amount.  `partName ? String(partName) : null` maps the
empty string to `null`. -/
def addEntry (amount : Option Int) (partName : String) (date : String)
    (st : AppState) : AppState :=
  match amount with
  | none => st
  | some newAmount =>
    if newAmount = 0 then st
    else
      { st with
        entries := { amount := newAmount
                     partName := if partName = "" then none else some partName
                     date := date } :: st.entries
        progress := st.progress + newAmount }

/-- The edit flow `startEdit(idx)` … `saveEdit()` (part_002 lines 143-180)
as one operation, the spec's `editEntry(index, newAmount, newLabel?)`:
`startEdit` is a no-op on an invalid index (`if (!entry) return`); `saveEdit`
is a no-op (alert only) when `Number(editAmount)` is NaN; otherwise the entry
at the index is replaced (its `date` kept by the object spread), with
`partName := editName ? editName.trim() : null`, and progress is adjusted by
`parsed - old` where `old` is the edited entry's previous amount. -/
def editEntry (idx : Nat) (newAmount : Option Int) (newLabel : String)
    (st : AppState) : AppState :=
  match st.entries[idx]? with
  | none => st
  | some old =>
    match newAmount with
    | none => st
    | some parsed =>
      { st with
        entries := st.entries.set idx
          { old with
            amount := parsed
            partName := if newLabel = "" then none else some (strTrim newLabel) }
        progress := st.progress - old.amount + parsed }

/-- `deleteEntry(idx)` (part_002 lines 182-188): no-op on an invalid index;
otherwise the entry is removed (`prev.filter((_, i) => i !== idx)`) and
progress decremented by its amount. -/
def deleteEntry (idx : Nat) (st : AppState) : AppState :=
  match st.entries[idx]? with
  | none => st
  | some ent =>
    { st with
      entries := st.entries.eraseIdx idx
      progress := st.progress - ent.amount }

/-- `clearAllEntries()` (part_002 lines 190-195): empties the ledger and sets
progress to 0 (the edit-session and alert flags it also clears are UI state
outside `AppState`). -/
def clearAllEntries (st : AppState) : AppState :=
  { st with entries := [], progress := 0 }

/-- The knob range bound `Math.max(1000, targetSum * 2)` used by every knob
mutation (part_002 lines 115, 332, 344, 356, 368). -/
def knobRange (targetSum : Int) : Int := max 1000 (targetSum * 2)

/-- One quick-button press (part_002 lines 327-376): each of the four buttons
runs `setKnobValue(v => clamp(v + delta, 0, Math.max(1000, targetSum * 2)))`
with `delta` one of −1000, +1000, −10000, +10000. -/
def adjustKnob (delta : Int) (st : AppState) : AppState :=
  { st with knobValue := clamp (st.knobValue + delta) 0 (knobRange st.targetSum) }

/-- `Math.round(deltaX / 10)` for an integer `deltaX` (part_002 lines 110-111,
`STEP_SIZE = 10`): JavaScript `Math.round` rounds half toward +∞, so
`Math.round(d / 10) = ⌊(d + 5) / 10⌋`, which is `(d + 5).fdiv 10` on `Int`. -/
def dragSteps (deltaX : Int) : Int := (deltaX + 5).fdiv 10

/-- `onPointerMove(e)` during an active drag (part_002 lines 107-119):
`deltaX = e.clientX - lastAngle.current`; `steps = Math.round(deltaX / 10)`;
when `steps ≠ 0` the knob value is adjusted by `steps × 1000` and clamped,
and the reference position is set to the current `clientX`; when `steps = 0`
nothing changes (the reference position is kept, so small motions
accumulate).  Returns the new state and the new reference position.
Pointer coordinates are modelled as integers. -/
def onPointerMove (clientX lastX : Int) (st : AppState) : AppState × Int :=
  let deltaX := clientX - lastX
  let steps := dragSteps deltaX
  if steps ≠ 0 then
    ({ st with knobValue := clamp (st.knobValue + steps * 1000) 0 (knobRange st.targetSum) },
     clientX)
  else (st, lastX)

/-- `commitKnob()` (part_002 lines 137-140): `addEntry(knobValue, "")` then
`setKnobValue(1000)`. -/
def commitKnob (date : String) (st : AppState) : AppState :=
  let st1 := addEntry (some st.knobValue) "" date st
  { st1 with knobValue := 1000 }

/-- The settings target input (part_002 lines 397-402):
`onChange = (e) => setTargetSum(Number(e.target.value))` — only `targetSum`
is written; `t` is the coerced new value. -/
def setTarget (t : Int) (st : AppState) : AppState :=
  { st with targetSum := t }

/-- The state produced by a first launch with empty storage: the documented
defaults target 100000, progress 25000, empty ledger, knob 1000. -/
def defaultState : AppState :=
  { targetSum := 100000, progress := 25000, entries := [], knobValue := 1000 }

/-- Sum of the amounts of a ledger. -/
def sumAmounts : List Entry → Int
  | [] => 0
  | e :: rest => e.amount + sumAmounts rest

/-- The ledger/progress invariant: progress equals the baseline `b` plus the
sum of all current entries' amounts (`b = 0` after a reset). -/
def ledgerInvariant (b : Int) (st : AppState) : Prop :=
  st.progress = b + sumAmounts st.entries

instance (b : Int) (st : AppState) : Decidable (ledgerInvariant b st) :=
  inferInstanceAs (Decidable (_ = _))

/-- One ledger operation, for quantifying over sequences of
add / edit / delete. -/
inductive LedgerOp where
  | add (amount : Option Int) (label : String) (date : String)
  | edit (idx : Nat) (amount : Option Int) (label : String)
  | del (idx : Nat)
deriving DecidableEq, Repr

/-- Apply one ledger operation to a state. -/
def applyOp (st : AppState) : LedgerOp → AppState
  | .add a l d => addEntry a l d st
  | .edit i a l => editEntry i a l st
  | .del i => deleteEntry i st

/-- Apply a sequence of ledger operations, oldest first. -/
def applyOps (ops : List LedgerOp) (st : AppState) : AppState :=
  ops.foldl applyOp st

/-- Replacing the entry at a valid index changes the amount sum by the
difference of the new and old amounts. -/
theorem sumAmounts_set (l : List Entry) :
    ∀ (i : Nat) (old e : Entry), l[i]? = some old →
      sumAmounts (l.set i e) = sumAmounts l - old.amount + e.amount := by
  induction l with
  | nil => intro i old e h; simp at h
  | cons x xs ih =>
    intro i old e h
    cases i with
    | zero =>
      simp at h
      subst h
      simp only [List.set, sumAmounts]
      omega
    | succ n =>
      simp at h
      rw [show (x :: xs).set (n + 1) e = x :: xs.set n e from rfl]
      simp only [sumAmounts, ih n old e h]
      omega

/-- Removing the entry at a valid index decreases the amount sum by its
amount. -/
theorem sumAmounts_eraseIdx (l : List Entry) :
    ∀ (i : Nat) (ent : Entry), l[i]? = some ent →
      sumAmounts (l.eraseIdx i) = sumAmounts l - ent.amount := by
  induction l with
  | nil => intro i ent h; simp at h
  | cons x xs ih =>
    intro i ent h
    cases i with
    | zero =>
      simp at h
      subst h
      rw [show (x :: xs).eraseIdx 0 = xs from rfl]
      simp only [sumAmounts]
      omega
    | succ n =>
      simp at h
      rw [show (x :: xs).eraseIdx (n + 1) = x :: xs.eraseIdx n from rfl]
      simp only [sumAmounts, ih n ent h]
      omega

/-- `addEntry` preserves the ledger/progress invariant. -/
theorem addEntry_invariant (b : Int) (a : Option Int) (lbl d : String)
    (st : AppState) (h : ledgerInvariant b st) :
    ledgerInvariant b (addEntry a lbl d st) := by
  cases a with
  | none => exact h
  | some v =>
    by_cases hv : v = 0
    · simpa [addEntry, hv] using h
    · simp only [ledgerInvariant] at h ⊢
      simp only [addEntry, if_neg hv, sumAmounts]
      omega

/-- `editEntry` preserves the ledger/progress invariant. -/
theorem editEntry_invariant (b : Int) (i : Nat) (a : Option Int) (lbl : String)
    (st : AppState) (h : ledgerInvariant b st) :
    ledgerInvariant b (editEntry i a lbl st) := by
  cases hg : st.entries[i]? with
  | none => simpa [editEntry, hg] using h
  | some old =>
    cases a with
    | none => simpa [editEntry, hg] using h
    | some parsed =>
      have hs := sumAmounts_set st.entries i old
        { old with
          amount := parsed
          partName := if lbl = "" then none else some (strTrim lbl) } hg
      simp only [ledgerInvariant] at h ⊢
      simp only [editEntry, hg]
      simp [hs]
      omega

/-- `deleteEntry` preserves the ledger/progress invariant. -/
theorem deleteEntry_invariant (b : Int) (i : Nat) (st : AppState)
    (h : ledgerInvariant b st) : ledgerInvariant b (deleteEntry i st) := by
  cases hg : st.entries[i]? with
  | none => simpa [deleteEntry, hg] using h
  | some ent =>
    have hs := sumAmounts_eraseIdx st.entries i ent hg
    simp only [ledgerInvariant] at h ⊢
    simp only [deleteEntry, hg]
    simp [hs]
    omega

/-- Each single ledger operation preserves the ledger/progress invariant. -/
theorem applyOp_preserves (b : Int) (st : AppState) (op : LedgerOp)
    (h : ledgerInvariant b st) : ledgerInvariant b (applyOp st op) := by
  cases op with
  | add a lbl d => exact addEntry_invariant b a lbl d st h
  | edit i a lbl => exact editEntry_invariant b i a lbl st h
  | del i => exact deleteEntry_invariant b i st h

/-- C1: for every sequence of add / edit (saveEdit) / delete operations and
every baseline `b`, a state satisfying `progress = b + sum of the current
entries' amounts` is taken to a state satisfying the same equation; the
invariant is checked after every prefix because `applyOps` is a fold of
`applyOp`, each application of which preserves it. -/
theorem ledger_invariant_preserved (ops : List LedgerOp) (b : Int)
    (st : AppState) (h : ledgerInvariant b st) :
    ledgerInvariant b (applyOps ops st) := by
  induction ops generalizing st with
  | nil => exact h
  | cons op rest ih => exact ih (applyOp st op) (applyOp_preserves b st op h)

theorem ledger_invariant_preserved_witness :
    ledgerInvariant 25000 defaultState ∧
    ledgerInvariant 25000 (applyOps
      [LedgerOp.add (some 2000) "" "2024-01-01T00:00:00.000Z",
       LedgerOp.edit 0 (some 500) "rent",
       LedgerOp.del 0] defaultState) :=
  ⟨by decide,
   ledger_invariant_preserved
     [LedgerOp.add (some 2000) "" "2024-01-01T00:00:00.000Z",
      LedgerOp.edit 0 (some 500) "rent",
      LedgerOp.del 0] 25000 defaultState (by decide)⟩

/-- C2: `addEntry` with a NaN amount (`none`) or a zero amount leaves the
state — hence the ledger and the progress — unchanged and signals nothing
(it is a total function into states, with no error channel); with any
nonzero numeric amount it prepends the new entry carrying exactly that
amount and increments progress by exactly that amount, negative amounts
included. -/
theorem addEntry_validation (st : AppState) (lbl date : String) :
    addEntry none lbl date st = st ∧
    addEntry (some 0) lbl date st = st ∧
    ∀ a : Int, a ≠ 0 →
      (addEntry (some a) lbl date st).entries =
        { amount := a
          partName := if lbl = "" then none else some lbl
          date := date } :: st.entries ∧
      (addEntry (some a) lbl date st).progress = st.progress + a := by
  refine ⟨rfl, rfl, ?_⟩
  intro a ha
  simp [addEntry, ha]

theorem addEntry_validation_witness :
    ((-5 : Int) ≠ 0) ∧
    ((addEntry (some (-5)) "bonus" "d" defaultState).entries =
        { amount := -5
          partName := if "bonus" = "" then none else some "bonus"
          date := "d" } :: defaultState.entries ∧
      (addEntry (some (-5)) "bonus" "d" defaultState).progress =
        defaultState.progress + (-5)) :=
  ⟨by decide, (addEntry_validation defaultState "bonus" "d").2.2 (-5) (by decide)⟩

/-- C3 counterexample: the claim "loading with a stored target of `"abc"`
yields a target of 0" is false in both variants of the initializer: part_002
coerces `"abc"` with `Number`, giving NaN (`none`), not 0, and the
src/src/App.jsx variant falls back to the default 100000, not 0. -/
theorem targetInit_abc_not_zero :
    targetInit (some "abc") ≠ some 0 ∧ targetInitJsx (some "abc") ≠ 0 := by
  exact ⟨by decide, by decide⟩

/-- C3 amended: when the persisted target value is the non-numeric string
`"abc"`, the part_002 initializer yields NaN (modelled `none`) and the
src/src/App.jsx initializer falls back to the default 100000; in neither
variant does the target become 0, and neither crashes (both initializers
are total). -/
theorem targetInit_abc :
    targetInit (some "abc") = none ∧ targetInitJsx (some "abc") = 100000 := by
  exact ⟨by decide, by decide⟩

/-- The clamp to `[lo, hi]` lands in `[lo, hi]` whenever `lo ≤ hi`. -/
theorem clamp_mem (v lo hi : Int) (h : lo ≤ hi) :
    lo ≤ clamp v lo hi ∧ clamp v lo hi ≤ hi := by
  unfold clamp
  omega

/-- C4: with a non-negative target, after any of the four quick-button
adjustments (−10000, −1000, +1000, +10000), and after any pointer-move of an
active drag that adjusts the pending value (the code only changes it when the
rounded step count is nonzero), the pending knob value lies in
`[0, max 1000 (2 × target)]`, because every such write goes through `clamp`
with those bounds. -/
theorem knob_clamp_law (st : AppState) (_ht : 0 ≤ st.targetSum) :
    (∀ delta : Int,
        delta = -10000 ∨ delta = -1000 ∨ delta = 1000 ∨ delta = 10000 →
        0 ≤ (adjustKnob delta st).knobValue ∧
          (adjustKnob delta st).knobValue ≤ knobRange st.targetSum) ∧
    (∀ clientX lastX : Int,
        (onPointerMove clientX lastX st).fst.knobValue ≠ st.knobValue →
        0 ≤ (onPointerMove clientX lastX st).fst.knobValue ∧
          (onPointerMove clientX lastX st).fst.knobValue ≤
            knobRange st.targetSum) := by
  have hr : (0 : Int) ≤ knobRange st.targetSum := by
    unfold knobRange
    omega
  constructor
  · intro delta _
    exact clamp_mem (st.knobValue + delta) 0 (knobRange st.targetSum) hr
  · intro clientX lastX hchanged
    by_cases hs : dragSteps (clientX - lastX) ≠ 0
    · simp only [onPointerMove, if_pos hs]
      exact clamp_mem _ 0 (knobRange st.targetSum) hr
    · exact absurd (by simp [onPointerMove, hs]) hchanged

theorem knob_clamp_law_witness :
    0 ≤ defaultState.targetSum ∧
    (0 ≤ (adjustKnob 10000 defaultState).knobValue ∧
      (adjustKnob 10000 defaultState).knobValue ≤
        knobRange defaultState.targetSum) :=
  ⟨by decide,
   (knob_clamp_law defaultState (by decide)).1 10000
     (Or.inr (Or.inr (Or.inr rfl)))⟩

/-- C5 counterexample: a single pointer-move event with a horizontal
displacement of 25 px from the default state does not change the pending
value by 2 steps (+2000): `Math.round(25 / 10) = 3`, so it moves by 3 steps
(1000 → 4000, not 3000). -/
theorem drag25_not_two_steps :
    ¬ ((onPointerMove 25 0 defaultState).fst.knobValue =
        defaultState.knobValue + 2 * 1000) := by
  decide

/-- C5 amended: a pointer-move event whose horizontal displacement since the
reference position is 25 px adjusts the pending value by exactly
`Math.round(25 / 10) = 3` steps (±3000 units, here +3000), never a fractional
2.5 steps, whenever the clamp bounds do not cut the move off; the reference
position then updates to the event position. -/
theorem drag25_steps (st : AppState) (lastX : Int)
    (h0 : 0 ≤ st.knobValue)
    (h1 : st.knobValue + 3000 ≤ knobRange st.targetSum) :
    (onPointerMove (lastX + 25) lastX st).fst.knobValue =
      st.knobValue + 3 * 1000 ∧
    (onPointerMove (lastX + 25) lastX st).snd = lastX + 25 := by
  have hd : lastX + 25 - lastX = 25 := by omega
  have hsteps : dragSteps 25 = 3 := by decide
  simp only [onPointerMove, hd, hsteps]
  norm_num [clamp]
  omega

theorem drag25_steps_witness :
    0 ≤ defaultState.knobValue ∧
    defaultState.knobValue + 3000 ≤ knobRange defaultState.targetSum ∧
    ((onPointerMove (0 + 25) 0 defaultState).fst.knobValue =
        defaultState.knobValue + 3 * 1000 ∧
      (onPointerMove (0 + 25) 0 defaultState).snd = 0 + 25) :=
  ⟨by decide, by decide, drag25_steps defaultState 0 (by decide) (by decide)⟩

/-- C6 counterexample: from the default load state, `addEntry(2000)` followed
by `editEntry(0, 500, "rent")` does not give progress 23000: the code computes
25000 + 2000 − 2000 + 500 = 25500. -/
theorem scenario2_progress_not_23000 :
    ¬ ((editEntry 0 (some 500) "rent"
          (addEntry (some 2000) "" "2024-01-01T00:00:00.000Z" defaultState)).progress
        = 23000) := by
  decide

/-- C6 amended: from the default load state (progress 25000, empty ledger),
`addEntry(2000)` followed by `editEntry(0, 500, "rent")` yields progress
25500 (= 25000 + 2000 − 2000 + 500: editEntry adjusts progress by
newAmount − oldAmount) and ledger entry 0 equal to
`{amount: 500, partName: "rent"}` (the entry at the index is replaced, its
date kept). -/
theorem scenario2_result :
    (editEntry 0 (some 500) "rent"
        (addEntry (some 2000) "" "2024-01-01T00:00:00.000Z" defaultState)).progress
      = 25500 ∧
    (editEntry 0 (some 500) "rent"
        (addEntry (some 2000) "" "2024-01-01T00:00:00.000Z" defaultState)).entries[0]?
      = some { amount := 500
               partName := some "rent"
               date := "2024-01-01T00:00:00.000Z" } := by
  exact ⟨by decide, by decide⟩

/-- C7 counterexample: the claim fails on the cited src/src/App.jsx loader.
With a parse function that parses the literal `"[]"` to the empty ledger and
throws (`none`) on anything else, loading the unparseable stored value
`"not json"` through `entriesInitJsx` propagates the throw (`none`) — it does
not degrade to the empty ledger `some []`. -/
theorem entriesInitJsx_unparseable_throws :
    entriesInitJsx (fun s => if s = "[]" then some [] else none)
        (some "not json") = none ∧
    ¬ (entriesInitJsx (fun s => if s = "[]" then some [] else none)
        (some "not json") = some []) :=
  ⟨by decide, by decide⟩

/-- C7 amended: on load, a missing ledger value degrades to an empty ledger
in both cited loaders, and an unparseable one (`JSON.parse` throws, modelled
`p raw = none`) degrades to the empty ledger with no user-visible error only
in the part_002 initializer, whose catch replaces it with `[]`
(`entriesInit` is total, so no error escapes); in the src/src/App.jsx
initializer the parse is unguarded, so an unparseable non-empty stored value
makes the loader throw (`none`) instead of degrading.  The hypothesis
`p "[]" = some []` records that `JSON.parse("[]")` yields the empty array. -/
theorem entriesInit_recovery_both (p : String → Option (List Entry))
    (hp : p "[]" = some []) :
    (∀ stored : Option String,
        stored = none ∨ (∃ raw, stored = some raw ∧ p raw = none) →
        entriesInit p stored = []) ∧
    entriesInitJsx p none = some [] ∧
    (∀ raw : String, raw ≠ "" → p raw = none →
        entriesInitJsx p (some raw) = none) := by
  refine ⟨?_, hp, ?_⟩
  · intro stored h
    rcases h with h | ⟨raw, hs, hpr⟩
    · subst h
      rfl
    · subst hs
      unfold entriesInit
      by_cases hr : raw = "" <;> simp [hr, hpr]
  · intro raw hraw hpr
    simp [entriesInitJsx, hraw, hpr]

theorem entriesInit_recovery_both_witness :
    entriesInit (fun s => if s = "[]" then some ([] : List Entry) else none)
        (some "not json") = [] ∧
    entriesInitJsx (fun s => if s = "[]" then some ([] : List Entry) else none)
        none = some [] ∧
    entriesInitJsx (fun s => if s = "[]" then some ([] : List Entry) else none)
        (some "not json") = none :=
  ⟨(entriesInit_recovery_both (fun s => if s = "[]" then some [] else none)
      (by decide)).1 (some "not json") (Or.inr ⟨"not json", rfl, by decide⟩),
   (entriesInit_recovery_both (fun s => if s = "[]" then some [] else none)
      (by decide)).2.1,
   (entriesInit_recovery_both (fun s => if s = "[]" then some [] else none)
      (by decide)).2.2 "not json" (by decide) (by decide)⟩

/-- C8: `clearAllEntries` sets progress to 0 and empties the ledger from any
state, and it is idempotent: a second application returns the state produced
by the first one unchanged (target and knob value are untouched by it). -/
theorem clearAll_idempotent (st : AppState) :
    (clearAllEntries st).progress = 0 ∧
    (clearAllEntries st).entries = [] ∧
    clearAllEntries (clearAllEntries st) = clearAllEntries st :=
  ⟨rfl, rfl, rfl⟩

/-- C9: `commitKnob` always resets the pending value to the default 1000 —
whether or not an entry was actually added — and when the pending value is 0,
`addEntry` rejects it, so the ledger and the progress are left unchanged. -/
theorem commitKnob_resets (st : AppState) (date : String) :
    (commitKnob date st).knobValue = 1000 ∧
    (st.knobValue = 0 →
      (commitKnob date st).entries = st.entries ∧
      (commitKnob date st).progress = st.progress) := by
  constructor
  · rfl
  · intro h0
    simp [commitKnob, addEntry, h0]

theorem commitKnob_resets_witness :
    (commitKnob "2024-01-01T00:00:00.000Z"
        { defaultState with knobValue := 0 }).knobValue = 1000 ∧
    (({ defaultState with knobValue := 0 } : AppState).knobValue = 0 ∧
      ((commitKnob "2024-01-01T00:00:00.000Z"
          { defaultState with knobValue := 0 }).entries =
          ({ defaultState with knobValue := 0 } : AppState).entries ∧
        (commitKnob "2024-01-01T00:00:00.000Z"
            { defaultState with knobValue := 0 }).progress =
          ({ defaultState with knobValue := 0 } : AppState).progress)) :=
  ⟨(commitKnob_resets { defaultState with knobValue := 0 }
      "2024-01-01T00:00:00.000Z").1,
   rfl,
   (commitKnob_resets { defaultState with knobValue := 0 }
      "2024-01-01T00:00:00.000Z").2 rfl⟩

/-- C10: setting the target writes only `targetSum`: the pending knob value,
the progress and the ledger are unchanged and no re-clamp happens; and
concretely, a state reached by dragging the knob to 200000 under target
100000 keeps pending value 200000 after the target is lowered to 1000, which
lies outside the new range `[0, max 1000 (2 × 1000)] = [0, 2000]` until some
later adjustment. -/
theorem setTarget_frame :
    (∀ (t : Int) (st : AppState),
        (setTarget t st).targetSum = t ∧
        (setTarget t st).knobValue = st.knobValue ∧
        (setTarget t st).progress = st.progress ∧
        (setTarget t st).entries = st.entries) ∧
    ((setTarget 1000 (onPointerMove 2000000 0 defaultState).fst).knobValue
        = 200000 ∧
      knobRange (setTarget 1000
          (onPointerMove 2000000 0 defaultState).fst).targetSum = 2000 ∧
      ¬ ((setTarget 1000 (onPointerMove 2000000 0 defaultState).fst).knobValue
          ≤ knobRange (setTarget 1000
              (onPointerMove 2000000 0 defaultState).fst).targetSum)) := by
  refine ⟨fun t st => ⟨rfl, rfl, rfl, rfl⟩, by decide, by decide, by decide⟩

end PocketProgress
